import Mathlib

/-!
Verification of the player-store / queue logic of the lokal music player.

The definitions below are a shallow embedding of `src/store/playerStore.ts`
and of the persistence layer `src/utils/storage.ts`.  Conventions used
throughout:

* TypeScript numbers (`currentTime`, `duration`, `volume`, song durations)
  are modelled as `Rat`; only order comparisons and clamping are performed
  on them, where rationals and IEEE doubles agree.
* `Math.floor(Math.random() * len)` is modelled by consuming one entry `d`
  from an explicit list of draws and taking `d % len` (every outcome in
  `[0, len)` is reachable).  A resampling loop that would keep running past
  the supplied draws is modelled by returning `none` ("the supplied prefix
  of the random stream does not determine a result"); the source would keep
  sampling forever in that case, so it never commits a state there either.
* Each store action returns the successor state together with the list of
  persistence calls it issued, in order (`StorageOp`), mirroring the
  `saveQueue` / `saveOriginalQueue` / `saveShuffledQueue` /
  `savePlayerState` calls of the source.
* The module-level mutable `playHistory` of `playerStore.ts` is carried as
  an explicit field of the state record.
-/

/-- A catalog song.  The source `Song` type (`src/types/api.ts`, not in the
snapshot) carries more metadata; the queue logic only uses `id` (string,
compared with `===`), and `duration`.  Equality of songs is by `id` in all
queue operations. -/
structure Song where
  id : String
  name : String
  duration : Rat
deriving DecidableEq, Repr

/-- The `'off' | 'one' | 'all'` union type of the repeat field. -/
inductive RepeatMode where
  | off
  | one
  | all
deriving DecidableEq, Repr

/-- The player store state (`PlayerState` in `playerStore.ts`).  The field
`repeatMode` embeds the source field `repeat` (a reserved word here);
`playHistory` embeds the module-level mutable `playHistory` array. -/
structure PlayerState where
  currentSong : Option Song
  queue : List Song
  originalQueue : List Song
  shuffledQueue : List Song
  isPlaying : Bool
  currentTime : Rat
  duration : Rat
  isLoading : Bool
  shuffle : Bool
  repeatMode : RepeatMode
  volume : Rat
  playHistory : List Song
deriving DecidableEq, Repr

/-- A persistence call issued by a store action, in source order.
`playerState s` records the `savePlayerState(get())` call with the state it
was handed. -/
inductive StorageOp where
  | queue (q : List Song)
  | originalQueue (q : List Song)
  | shuffledQueue (q : List Song)
  | playerState (s : PlayerState)
deriving DecidableEq, Repr

/-- `getEffectiveQueue` of `playerStore.ts` (lines 57-70).  The source takes
the four relevant fields as an object; we pass the whole state record. -/
def getEffectiveQueue (state : PlayerState) : List Song :=
  if state.shuffle = true ∧ state.shuffledQueue.length > 0 then
    state.shuffledQueue
  else if state.shuffle = false ∧ state.originalQueue.length > 0 then
    state.originalQueue
  else
    state.queue

/-- The resampling loop
`let nextIndex = floor(random()*len); while (nextIndex === currentIndex && len > 1) resample`
of `getNextSongIndex` / `getPreviousSongIndex`: take draws until one lands
off `currentIndex` (or immediately, when the queue has at most one song).
`none` means the supplied draws were exhausted first. -/
def resampleDifferent (draws : List Nat) (len currentIndex : Nat) : Option Nat :=
  match draws with
  | [] => none
  | d :: rest =>
    let nextIndex := d % len
    if nextIndex = currentIndex ∧ 1 < len then resampleDifferent rest len currentIndex
    else some nextIndex

/-- `getNextSongIndex` of `playerStore.ts` (lines 75-120).  Result
`some (some i)` models returning `i`, `some none` models returning `null`,
and `none` means the draws ran out inside a resampling loop (the source
would still be sampling). -/
def getNextSongIndex (currentIndex : Nat) (queue : List Song) (shuffle : Bool)
    (rep : RepeatMode) (draws : List Nat) : Option (Option Nat) :=
  if queue.length = 0 then some none
  else if rep = RepeatMode.one then some (some currentIndex)
  else if rep = RepeatMode.all ∧ currentIndex = queue.length - 1 then
    -- single draw, no anti-repeat guard at the wrap point
    (if shuffle then (draws.head?).map (fun d => some (d % queue.length))
     else some (some 0))
  else if currentIndex < queue.length - 1 then
    (if shuffle then (resampleDifferent draws queue.length currentIndex).map some
     else some (some (currentIndex + 1)))
  else if rep = RepeatMode.all then
    (if shuffle then (resampleDifferent draws queue.length currentIndex).map some
     else some (some 0))
  else some none

/-- `getPreviousSongIndex` of `playerStore.ts` (lines 125-161); same result
convention as `getNextSongIndex`. -/
def getPreviousSongIndex (currentIndex : Nat) (queue : List Song) (shuffle : Bool)
    (rep : RepeatMode) (history : List Song) (draws : List Nat) : Option (Option Nat) :=
  if queue.length = 0 then some none
  else if shuffle then
    match history.getLast? with
    | some prev =>
      match queue.findIdx? (fun x => x.id == prev.id) with
      | some i => some (some i)
      | none => (resampleDifferent draws queue.length currentIndex).map some
    | none => (resampleDifferent draws queue.length currentIndex).map some
  else if 0 < currentIndex then some (some (currentIndex - 1))
  else if rep = RepeatMode.all then some (some (queue.length - 1))
  else some none

example : getNextSongIndex 0 [⟨"a", "a", 1⟩, ⟨"b", "b", 2⟩] true RepeatMode.one [] =
    some (some 0) := by decide

example : getNextSongIndex 0 [⟨"a", "a", 1⟩, ⟨"b", "b", 2⟩, ⟨"c", "c", 3⟩] true
    RepeatMode.off [0, 0, 1] = some (some 1) := by decide

example : getNextSongIndex 1 [⟨"a", "a", 1⟩, ⟨"b", "b", 2⟩] true RepeatMode.all [1] =
    some (some 1) := by decide

/-- The history trim `if (playHistory.length > 50) playHistory = playHistory.slice(-50)`
(keep the last 50 entries). -/
def trimHistory (hist : List Song) : List Song :=
  if 50 < hist.length then hist.drop (hist.length - 50) else hist

/-- Modelled from the spec: `shuffleArray` lives in `src/utils/shuffle.ts`,
which is not in the snapshot; spec section 4.3 only requires toggling
shuffle on to generate "a new random permutation of `originalQueue`".  We
model a draw-driven selection shuffle: each draw picks (mod the remaining
length) the next element of the output.  When the draws run out the
remaining elements keep their order, so the result is a permutation for any
draw list. -/
def shuffleArray : List Nat → List Song → List Song
  | _, [] => []
  | [], l => l
  | d :: ds, x :: xs =>
    let l := x :: xs
    let j := d % l.length
    match l.get? j with
    | some y => y :: shuffleArray ds (l.eraseIdx j)
    | none => l

/-- `playSong` (`playerStore.ts` lines 202-246).  The history trim runs
unconditionally; the previous current song is pushed when the new song has
a different id (`song.id !== get().currentSong?.id` is true when there is
no current song, but the inner `if (get().currentSong)` then skips the
push). -/
def playSong (song : Song) (s : PlayerState) : PlayerState × List StorageOp :=
  let eff := getEffectiveQueue s
  let songIndex := eff.findIdx? (fun x => x.id == song.id)
  let hist1 := trimHistory s.playHistory
  let hist2 :=
    match s.currentSong with
    | some c => if song.id ≠ c.id then hist1 ++ [c] else hist1
    | none => hist1
  match songIndex with
  | none =>
    -- song not in the effective queue: prepend and play
    let newQueue := song :: eff
    let newOriginalQueue := if s.shuffle then s.originalQueue else song :: s.originalQueue
    let s' : PlayerState :=
      { s with currentSong := some song, queue := newQueue,
               originalQueue := newOriginalQueue, isPlaying := true,
               currentTime := 0, duration := song.duration, isLoading := true,
               playHistory := hist2 }
    (s', [StorageOp.queue newQueue, StorageOp.originalQueue newOriginalQueue,
          StorageOp.playerState s'])
  | some _ =>
    let s' : PlayerState :=
      { s with currentSong := some song, isPlaying := true, currentTime := 0,
               duration := song.duration, isLoading := true, playHistory := hist2 }
    (s', [StorageOp.playerState s'])

/-- `pauseSong` (lines 248-251). -/
def pauseSong (s : PlayerState) : PlayerState × List StorageOp :=
  let s' : PlayerState := { s with isPlaying := false }
  (s', [StorageOp.playerState s'])

/-- `resumeSong` (lines 253-259): no-op when there is no current song. -/
def resumeSong (s : PlayerState) : PlayerState × List StorageOp :=
  match s.currentSong with
  | some _ =>
    let s' : PlayerState := { s with isPlaying := true }
    (s', [StorageOp.playerState s'])
  | none => (s, [])

/-- `nextSong` (lines 261-295). -/
def nextSong (s : PlayerState) (draws : List Nat) : PlayerState × List StorageOp :=
  match s.currentSong with
  | none => (s, [])
  | some c =>
    if s.queue.length = 0 then (s, [])
    else
      let eff := getEffectiveQueue s
      match eff.findIdx? (fun x => x.id == c.id) with
      | none => (s, [])
      | some currentIndex =>
        match getNextSongIndex currentIndex eff s.shuffle s.repeatMode draws with
        | none => (s, [])  -- draws exhausted inside the resample loop
        | some (some n) =>
          if hn : n < eff.length then
            let nxt := eff.get ⟨n, hn⟩
            let hist :=
              if c.id ≠ nxt.id then trimHistory s.playHistory ++ [c]
              else s.playHistory
            let s' : PlayerState :=
              { s with currentSong := some nxt, isPlaying := true,
                       currentTime := 0, duration := nxt.duration,
                       isLoading := true, playHistory := hist }
            (s', [StorageOp.playerState s'])
          else
            let s' : PlayerState := { s with isPlaying := false }
            (s', [StorageOp.playerState s'])
        | some none =>
          -- no next song available
          let s' : PlayerState := { s with isPlaying := false }
          (s', [StorageOp.playerState s'])

/-- `previousSong` (lines 297-333).  Note there is no else-branch: when no
previous index is found nothing is set and nothing is saved. -/
def previousSong (s : PlayerState) (draws : List Nat) : PlayerState × List StorageOp :=
  match s.currentSong with
  | none => (s, [])
  | some c =>
    if s.queue.length = 0 then (s, [])
    else
      let eff := getEffectiveQueue s
      match eff.findIdx? (fun x => x.id == c.id) with
      | none => (s, [])
      | some currentIndex =>
        match getPreviousSongIndex currentIndex eff s.shuffle s.repeatMode
            s.playHistory draws with
        | none => (s, [])  -- draws exhausted inside the resample loop
        | some (some p) =>
          if hp : p < eff.length then
            let prev := eff.get ⟨p, hp⟩
            let hist :=
              if s.shuffle = true then
                match s.playHistory.getLast? with
                | some lastPlayed =>
                  if lastPlayed.id == prev.id then s.playHistory.dropLast
                  else s.playHistory
                | none => s.playHistory
              else s.playHistory
            let s' : PlayerState :=
              { s with currentSong := some prev, isPlaying := true,
                       currentTime := 0, duration := prev.duration,
                       isLoading := true, playHistory := hist }
            (s', [StorageOp.playerState s'])
          else (s, [])
        | some none => (s, [])

/-- `seekTo` (lines 335-339): clamp into `[0, duration]`, update
`currentTime` only, no persistence call. -/
def seekTo (time : Rat) (s : PlayerState) : PlayerState × List StorageOp :=
  let clampedTime := max 0 (min time s.duration)
  ({ s with currentTime := clampedTime }, [])

/-- `addToQueue` (lines 341-362): no-op when the id already occurs in
`queue`; otherwise append to both lists, re-shuffle when shuffle is on. -/
def addToQueue (song : Song) (draws : List Nat) (s : PlayerState) :
    PlayerState × List StorageOp :=
  if s.queue.any (fun x => x.id == song.id) then (s, [])
  else
    let newQueue := s.queue ++ [song]
    let newOriginalQueue := s.originalQueue ++ [song]
    let newShuffledQueue := if s.shuffle = true then shuffleArray draws newOriginalQueue else []
    let s' : PlayerState :=
      { s with
        queue := if s.shuffle = true ∧ newShuffledQueue.length > 0 then newShuffledQueue
                 else newQueue,
        originalQueue := newOriginalQueue,
        shuffledQueue := newShuffledQueue }
    (s', [StorageOp.queue newQueue, StorageOp.originalQueue newOriginalQueue] ++
         (if s.shuffle = true ∧ newShuffledQueue.length > 0 then
            [StorageOp.shuffledQueue newShuffledQueue]
          else []) ++
         [StorageOp.playerState s'])

/-- `removeFromQueue` (lines 364-420).  The index is a JS number, so it is
taken as an `Int` and bounds-checked against `queue` before use.  When
`effectiveQueue[index]` is `undefined` (the effective queue being shorter
than `queue`) the source throws before any `set`, committing no state;
modelled as returning the state unchanged with no persistence. -/
def removeFromQueue (index : Int) (draws : List Nat) (s : PlayerState) :
    PlayerState × List StorageOp :=
  if index < 0 ∨ (s.queue.length : Int) ≤ index then (s, [])
  else
    let i := index.toNat
    let eff := getEffectiveQueue s
    match eff.get? i with
    | none => (s, [])
    | some removedSong =>
      let newEffectiveQueue := eff.eraseIdx i
      let newOriginalQueue := s.originalQueue.filter (fun x => x.id != removedSong.id)
      let newShuffledQueue := s.shuffledQueue.filter (fun x => x.id != removedSong.id)
      let ops := [StorageOp.queue newEffectiveQueue,
                  StorageOp.originalQueue newOriginalQueue] ++
                 (if s.shuffle = true then [StorageOp.shuffledQueue newShuffledQueue] else [])
      let isCurrent :=
        match s.currentSong with
        | some c => c.id == removedSong.id
        | none => false
      if isCurrent = true then
        match getNextSongIndex i newEffectiveQueue s.shuffle s.repeatMode draws with
        | none => (s, [])  -- draws exhausted inside the resample loop
        | some nextIdx =>
          match nextIdx with
          | some n =>
            if hn : n < newEffectiveQueue.length then
              let nxt := newEffectiveQueue.get ⟨n, hn⟩
              let s' : PlayerState :=
                { s with currentSong := some nxt, queue := newEffectiveQueue,
                         originalQueue := newOriginalQueue,
                         shuffledQueue := if s.shuffle = true then newShuffledQueue else [],
                         isPlaying := true, currentTime := 0, duration := nxt.duration }
              (s', ops ++ [StorageOp.playerState s'])
            else
              let s' : PlayerState :=
                { s with currentSong := none, queue := newEffectiveQueue,
                         originalQueue := newOriginalQueue,
                         shuffledQueue := if s.shuffle = true then newShuffledQueue else [],
                         isPlaying := false, currentTime := 0, duration := 0 }
              (s', ops ++ [StorageOp.playerState s'])
          | none =>
            let s' : PlayerState :=
              { s with currentSong := none, queue := newEffectiveQueue,
                       originalQueue := newOriginalQueue,
                       shuffledQueue := if s.shuffle = true then newShuffledQueue else [],
                       isPlaying := false, currentTime := 0, duration := 0 }
            (s', ops ++ [StorageOp.playerState s'])
      else
        let s' : PlayerState :=
          { s with queue := newEffectiveQueue, originalQueue := newOriginalQueue,
                   shuffledQueue := if s.shuffle = true then newShuffledQueue else [] }
        (s', ops ++ [StorageOp.playerState s'])

/-- The two JS `splice` calls of `reorderQueue`: remove at `f`, reinsert at
`t` (a `splice` insertion index past the end appends). -/
def spliceMove (l : List Song) (f t : Nat) (moved : Song) : List Song :=
  let removedList := l.eraseIdx f
  if t ≤ removedList.length then removedList.insertIdx t moved
  else removedList ++ [moved]

/-- `reorderQueue` (lines 422-451).  Bounds are checked against `queue`;
when `effectiveQueue[from]` is `undefined` the source throws on `.id`
before any `set`, committing no state (modelled as unchanged).  The mirror
move in `originalQueue` is best-effort identity lookup.  With shuffle on,
the visible `queue` is reset to the (unreordered) `shuffledQueue`. -/
def reorderQueue (fromIdx toIdx : Int) (s : PlayerState) :
    PlayerState × List StorageOp :=
  if fromIdx < 0 ∨ (s.queue.length : Int) ≤ fromIdx ∨ toIdx < 0 ∨
      (s.queue.length : Int) ≤ toIdx then (s, [])
  else
    let f := fromIdx.toNat
    let t := toIdx.toNat
    let eff := getEffectiveQueue s
    match eff.get? f with
    | none => (s, [])
    | some movedSong =>
      let newEffectiveQueue := spliceMove eff f t movedSong
      let toId? := (eff.get? t).map (fun x => x.id)
      let originalFromIndex := s.originalQueue.findIdx? (fun x => x.id == movedSong.id)
      let originalToIndex := s.originalQueue.findIdx? (fun x =>
        (match toId? with
         | some tid => x.id == tid
         | none => false) || x.id == movedSong.id)
      let newOriginalQueue :=
        match originalFromIndex, originalToIndex with
        | some ofi, some oti => spliceMove s.originalQueue ofi oti movedSong
        | _, _ => s.originalQueue
      let s' : PlayerState :=
        { s with queue := if s.shuffle = true then s.shuffledQueue else newEffectiveQueue,
                 originalQueue := newOriginalQueue }
      (s', [StorageOp.queue newEffectiveQueue,
            StorageOp.originalQueue newOriginalQueue, StorageOp.playerState s'])

/-- `clearQueue` (lines 453-467): empty both queues and the mirror, clear
the current song and position; `shuffle`, `repeatMode`, `volume`,
`isLoading` and the play history are left as they are. -/
def clearQueue (s : PlayerState) : PlayerState × List StorageOp :=
  let s' : PlayerState :=
    { s with queue := [], originalQueue := [], shuffledQueue := [],
             currentSong := none, isPlaying := false, currentTime := 0,
             duration := 0 }
  (s', [StorageOp.queue [], StorageOp.originalQueue [],
        StorageOp.shuffledQueue [], StorageOp.playerState s'])

/-- `toggleShuffle` (lines 469-490). -/
def toggleShuffle (draws : List Nat) (s : PlayerState) :
    PlayerState × List StorageOp :=
  if s.shuffle = false then
    let shuffled :=
      shuffleArray draws (if s.originalQueue.length > 0 then s.originalQueue else s.queue)
    let s' : PlayerState :=
      { s with shuffle := true, shuffledQueue := shuffled, queue := shuffled }
    (s', [StorageOp.shuffledQueue shuffled, StorageOp.playerState s'])
  else
    let s' : PlayerState :=
      { s with shuffle := false,
               queue := if s.originalQueue.length > 0 then s.originalQueue else s.queue }
    (s', [StorageOp.playerState s'])

/-- `setRepeat` (lines 492-495): persists. -/
def setRepeat (mode : RepeatMode) (s : PlayerState) : PlayerState × List StorageOp :=
  let s' : PlayerState := { s with repeatMode := mode }
  (s', [StorageOp.playerState s'])

/-- `setCurrentTime` (lines 497-501): clamps into `[0, duration]`; the
source issues no persistence call here. -/
def setCurrentTime (time : Rat) (s : PlayerState) : PlayerState × List StorageOp :=
  let clampedTime := max 0 (min time s.duration)
  ({ s with currentTime := clampedTime }, [])

/-- `setDuration` (lines 503-505): clamps below at 0; no persistence. -/
def setDuration (duration : Rat) (s : PlayerState) : PlayerState × List StorageOp :=
  ({ s with duration := max 0 duration }, [])

/-- `setIsPlaying` (lines 507-510): persists. -/
def setIsPlaying (playing : Bool) (s : PlayerState) : PlayerState × List StorageOp :=
  let s' : PlayerState := { s with isPlaying := playing }
  (s', [StorageOp.playerState s'])

/-- `setVolume` (lines 512-516): clamps into `[0, 1]`; persists. -/
def setVolume (volume : Rat) (s : PlayerState) : PlayerState × List StorageOp :=
  let clampedVolume := max 0 (min 1 volume)
  let s' : PlayerState := { s with volume := clampedVolume }
  (s', [StorageOp.playerState s'])

/-- `setCurrentSong` (lines 518-521): persists. -/
def setCurrentSong (song : Option Song) (s : PlayerState) : PlayerState × List StorageOp :=
  let s' : PlayerState := { s with currentSong := song }
  (s', [StorageOp.playerState s'])

/-- `setIsLoading` (lines 523-525): no persistence. -/
def setIsLoading (loading : Bool) (s : PlayerState) : PlayerState × List StorageOp :=
  ({ s with isLoading := loading }, [])

/-- The MMKV key/value slots used by `src/utils/storage.ts`; `none` models
an absent key.  `repeatMode` embeds the `player:repeat` slot. -/
structure Storage where
  queue : Option (List Song)
  currentSong : Option Song
  repeatMode : Option RepeatMode
  shuffle : Option Bool
  volume : Option Rat
  shuffledQueue : Option (List Song)
  originalQueue : Option (List Song)
deriving DecidableEq, Repr

/-- The empty storage (no key present). -/
def emptyStorage : Storage :=
  { queue := none, currentSong := none, repeatMode := none, shuffle := none,
    volume := none, shuffledQueue := none, originalQueue := none }

/-- `saveQueue` of `storage.ts`: serialization is modelled as the identity
on song lists (the JSON round trip of these plain records is lossless). -/
def saveQueue (q : List Song) (st : Storage) : Storage :=
  { st with queue := some q }

/-- `loadQueue` of `storage.ts`: absent key yields `[]`. -/
def loadQueue (st : Storage) : List Song :=
  st.queue.getD []

/-- `saveOriginalQueue` of `storage.ts`. -/
def saveOriginalQueue (q : List Song) (st : Storage) : Storage :=
  { st with originalQueue := some q }

/-- `loadOriginalQueue` of `storage.ts`. -/
def loadOriginalQueue (st : Storage) : List Song :=
  st.originalQueue.getD []

/-- `saveShuffledQueue` of `storage.ts`. -/
def saveShuffledQueue (q : List Song) (st : Storage) : Storage :=
  { st with shuffledQueue := some q }

/-- `loadShuffledQueue` of `storage.ts`. -/
def loadShuffledQueue (st : Storage) : List Song :=
  st.shuffledQueue.getD []

/-- `savePlayerState` of `storage.ts` (lines 143-164 of the file).  The
store always hands it its full state, in which `originalQueue` and
`shuffledQueue` are (possibly empty) arrays; empty arrays are truthy in JS,
so the two trailing `if (state.originalQueue)` / `if (state.shuffledQueue)`
guards always fire.  A `null` current song deletes the slot. -/
def savePlayerState (s : PlayerState) (st : Storage) : Storage :=
  let st1 := saveQueue s.queue st
  let st2 :=
    match s.currentSong with
    | some c => { st1 with currentSong := some c }
    | none => { st1 with currentSong := none }
  let st3 := { st2 with shuffle := some s.shuffle, repeatMode := some s.repeatMode,
                        volume := some s.volume }
  let st4 := saveOriginalQueue s.originalQueue st3
  saveShuffledQueue s.shuffledQueue st4

/-- The record returned by `loadPlayerState` (`Partial<PlayerState>` of
`storage.ts`): `shuffledQueue` is `undefined` when the stored shuffled
queue is empty. -/
structure LoadedPlayerState where
  currentSong : Option Song
  queue : List Song
  originalQueue : List Song
  shuffledQueue : Option (List Song)
  shuffle : Bool
  repeatMode : RepeatMode
  volume : Rat
deriving DecidableEq, Repr

/-- `loadPlayerState` of `storage.ts` (lines 169-195 of the file). -/
def loadPlayerState (st : Storage) : LoadedPlayerState :=
  let queue := loadQueue st
  let originalQueue := loadOriginalQueue st
  let shuffledQueue := loadShuffledQueue st
  let shuffle := st.shuffle.getD false
  { currentSong := st.currentSong,
    queue := if shuffle = true ∧ shuffledQueue.length > 0 then shuffledQueue else queue,
    originalQueue := if originalQueue.length > 0 then originalQueue else queue,
    shuffledQueue := if shuffledQueue.length > 0 then some shuffledQueue else none,
    shuffle := shuffle,
    repeatMode := st.repeatMode.getD RepeatMode.off,
    volume := st.volume.getD 1 }

/-- `initializeFromStorage` of `playerStore.ts` (lines 188-199), renamed
`initFromStorage` here.  `loadPlayerState` always returns (possibly empty)
arrays for `queue` and `originalQueue`, and empty arrays are truthy in JS,
so the `|| []` fallbacks reduce to the loaded values; the optional
`shuffledQueue` falls back to `[]`. -/
def initFromStorage (st : Storage) (s : PlayerState) : PlayerState :=
  let loaded := loadPlayerState st
  { s with currentSong := loaded.currentSong,
           queue := loaded.queue,
           originalQueue := loaded.originalQueue,
           shuffledQueue := loaded.shuffledQueue.getD [],
           shuffle := loaded.shuffle,
           repeatMode := loaded.repeatMode,
           volume := loaded.volume }

/-- The store's creation-time state when storage is empty: the defaults of
`playerStore.ts` lines 173-186 (empty queues, not playing, shuffle off,
repeat off, volume 1) with an empty play history. -/
def initialState : PlayerState :=
  { currentSong := none, queue := [], originalQueue := [], shuffledQueue := [],
    isPlaying := false, currentTime := 0, duration := 0, isLoading := false,
    shuffle := false, repeatMode := RepeatMode.off, volume := 1,
    playHistory := [] }

/-- A song-transition intent: the three actions that touch the play
history, each shuffle-dependent one carrying its random draws. -/
inductive PlayerAction where
  | play (song : Song)
  | next (draws : List Nat)
  | prev (draws : List Nat)
deriving DecidableEq, Repr

/-- Run one song-transition action (dropping the persistence log). -/
def applyAction (s : PlayerState) (a : PlayerAction) : PlayerState :=
  match a with
  | PlayerAction.play song => (playSong song s).1
  | PlayerAction.next draws => (nextSong s draws).1
  | PlayerAction.prev draws => (previousSong s draws).1

/-- Run a sequence of song-transition actions. -/
def runActions (s : PlayerState) (acts : List PlayerAction) : PlayerState :=
  acts.foldl applyAction s

/-- Song A of the spec's section 8 scenario (180 s). -/
def songA : Song := { id := "A", name := "A", duration := 180 }

/-- Song B of the spec's section 8 scenario (200 s). -/
def songB : Song := { id := "B", name := "B", duration := 200 }

/-- Song C of the spec's section 8 scenario (150 s). -/
def songC : Song := { id := "C", name := "C", duration := 150 }

/-- The section 8 scenario start state: queue `[A, B, C]`, shuffle off,
repeat off, current song A. -/
def scenarioState : PlayerState :=
  { initialState with currentSong := some songA, queue := [songA, songB, songC],
                      originalQueue := [songA, songB, songC], duration := 180,
                      isPlaying := true }

/-- State after the first `nextSong()` of the scenario. -/
def scenario1 : PlayerState := (nextSong scenarioState []).1

/-- State after the second `nextSong()` of the scenario. -/
def scenario2 : PlayerState := (nextSong scenario1 []).1

/-- State after the third `nextSong()` of the scenario. -/
def scenario3 : PlayerState := (nextSong scenario2 []).1

/-- Reachable state: `addToQueue(songB)` from the default start state. -/
def chainState1 : PlayerState := (addToQueue songB [] initialState).1

/-- Reachable state: shuffle toggled on after `chainState1` (a singleton
queue, so the shuffled queue is `[songB]` whatever the draws). -/
def chainState2 : PlayerState := (toggleShuffle [] chainState1).1

/-- Reachable state: `playSong(songA)` with shuffle active and a non-empty
shuffled queue; `songA` is absent from the effective queue. -/
def chainState3 : PlayerState := (playSong songA chainState2).1

example : chainState2.shuffle = true ∧ chainState2.shuffledQueue = [songB] ∧
    chainState2.queue = [songB] := by decide

example : chainState3.queue = [songA, songB] ∧ chainState3.shuffledQueue = [songB] := by
  decide

example : scenario1.currentSong = some songB ∧ scenario1.currentTime = 0 ∧
    scenario1.duration = 200 := by decide

example : scenario2.currentSong = some songC := by decide

example : scenario3.isPlaying = false ∧ scenario3.currentSong = some songC := by decide

/-- A fresh song with a numeric string id, for bulk history scenarios. -/
def mkSong (n : Nat) : Song := { id := toString n, name := "", duration := 0 }

/-- 52 pairwise distinct songs. -/
def songs52 : List Song := (List.range 52).map mkSong

/-- A state with the 52 songs queued, empty play history, nothing playing
yet. -/
def histState : PlayerState :=
  { initialState with queue := songs52, originalQueue := songs52 }

/-- Playing the 52 songs in order. -/
def plays52 : List PlayerAction := songs52.map PlayerAction.play


/-- A state with shuffle on but no materialized shuffled queue, and a
non-empty original queue distinct from the visible queue. -/
def fallbackState : PlayerState :=
  { initialState with shuffle := true, shuffledQueue := [],
                      originalQueue := [songB], queue := [songA] }

/-- C2 (amended): `getEffectiveQueue` returns `shuffledQueue` when shuffle
is on and `shuffledQueue` is non-empty; `originalQueue` when shuffle is
*off* and `originalQueue` is non-empty; and `queue` in the two remaining
cases — in particular, with shuffle on and an empty `shuffledQueue` it
returns `queue` even when `originalQueue` is non-empty. -/
theorem getEffectiveQueue_cases (s : PlayerState) :
    (s.shuffle = true → s.shuffledQueue ≠ [] → getEffectiveQueue s = s.shuffledQueue) ∧
    (s.shuffle = false → s.originalQueue ≠ [] → getEffectiveQueue s = s.originalQueue) ∧
    (s.shuffle = true → s.shuffledQueue = [] → getEffectiveQueue s = s.queue) ∧
    (s.shuffle = false → s.originalQueue = [] → getEffectiveQueue s = s.queue) := by
  rcases s with ⟨cs, q, oq, sq, ip, ct, d, il, sh, rm, v, ph⟩
  cases sh <;> rcases sq with _ | ⟨a, sq⟩ <;> rcases oq with _ | ⟨b, oq⟩ <;>
    simp [getEffectiveQueue]

/-- Witness for `getEffectiveQueue_cases`: each of the four cases applied
at a concrete state. -/
theorem getEffectiveQueue_cases_witness :
    getEffectiveQueue chainState2 = chainState2.shuffledQueue ∧
    getEffectiveQueue scenarioState = scenarioState.originalQueue ∧
    getEffectiveQueue fallbackState = fallbackState.queue ∧
    getEffectiveQueue initialState = initialState.queue :=
  ⟨(getEffectiveQueue_cases chainState2).1 (by decide) (by decide),
   (getEffectiveQueue_cases scenarioState).2.1 (by decide) (by decide),
   (getEffectiveQueue_cases fallbackState).2.2.1 (by decide) (by decide),
   (getEffectiveQueue_cases initialState).2.2.2 (by decide) (by decide)⟩

/-- C2 counterexample: with shuffle on, `shuffledQueue` empty and
`originalQueue` non-empty, `getEffectiveQueue` returns `queue`, not
`originalQueue` as the claim states (the middle branch of the source
requires `!state.shuffle`). -/
theorem getEffectiveQueue_shuffle_empty_cex :
    fallbackState.shuffle = true ∧ fallbackState.shuffledQueue = [] ∧
    fallbackState.originalQueue ≠ [] ∧
    getEffectiveQueue fallbackState ≠ fallbackState.originalQueue ∧
    getEffectiveQueue fallbackState = fallbackState.queue := by decide

/-- The resampling loop never answers the current index when the queue has
more than one entry. -/
lemma resampleDifferent_ne (draws : List Nat) (len cur i : Nat) (hlen : 1 < len)
    (h : resampleDifferent draws len cur = some i) : i ≠ cur := by
  induction draws with
  | nil => simp [resampleDifferent] at h
  | cons d rest ih =>
    rw [resampleDifferent] at h
    by_cases hc : d % len = cur
    · rw [if_pos ⟨hc, hlen⟩] at h
      exact ih h
    · rw [if_neg (fun hx => hc hx.1)] at h
      cases h
      exact hc

/-- C4 (amended): with shuffle on, a queue of more than one song and an
in-bounds current index, `getNextSongIndex` never answers the current
index, *except* in the two guard-free paths the source takes for
`repeat = 'one'` (which returns the current index by design) and for
`repeat = 'all'` at the last position (a single unguarded draw). -/
theorem getNextSongIndex_shuffle_ne (queue : List Song) (cur : Nat) (rep : RepeatMode)
    (draws : List Nat) (i : Nat) (h1 : 1 < queue.length) (h2 : cur < queue.length)
    (h3 : rep ≠ RepeatMode.one) (h4 : ¬(rep = RepeatMode.all ∧ cur = queue.length - 1))
    (hres : getNextSongIndex cur queue true rep draws = some (some i)) : i ≠ cur := by
  unfold getNextSongIndex at hres
  rw [if_neg (by omega)] at hres
  rw [if_neg h3] at hres
  rw [if_neg h4] at hres
  by_cases h5 : cur < queue.length - 1
  · rw [if_pos h5, if_pos rfl] at hres
    cases hx : resampleDifferent draws queue.length cur with
    | none => rw [hx] at hres; cases hres
    | some j =>
      rw [hx] at hres
      have hji : j = i := by simpa using hres
      exact hji ▸ resampleDifferent_ne draws queue.length cur j h1 hx
  · rw [if_neg h5] at hres
    have hrep : rep ≠ RepeatMode.all := fun ha => h4 ⟨ha, by omega⟩
    rw [if_neg hrep] at hres
    cases hres

/-- Witness for `getNextSongIndex_shuffle_ne` at queue `[A, B, C]`,
current index 0, repeat off, draw 1. -/
theorem getNextSongIndex_shuffle_ne_witness : (1 : Nat) ≠ 0 :=
  getNextSongIndex_shuffle_ne [songA, songB, songC] 0 RepeatMode.off [1] 1
    (by decide) (by decide) (by decide) (by decide) (by decide)

/-- C4 counterexample: with `repeat = 'one'` (one of the repeat modes the
claim quantifies over), shuffle on and a two-song queue, `getNextSongIndex`
returns the current index. -/
theorem getNextSongIndex_repeat_one_cex :
    1 < ([songA, songB] : List Song).length ∧
    getNextSongIndex 0 [songA, songB] true RepeatMode.one [0, 1] = some (some 0) := by
  decide

/-- C5: in the scenario `queue = [A(180), B(200), C(150)]`, shuffle off,
repeat off, current song A, the first `nextSong()` moves to B with
`currentTime = 0` and `duration = 200`, the second moves to C, and the
third finds no next song, stops playback and keeps C current. -/
theorem nextSong_scenario_abc :
    scenario1.currentSong = some songB ∧ scenario1.currentTime = 0 ∧
    scenario1.duration = 200 ∧
    scenario2.currentSong = some songC ∧
    scenario3.isPlaying = false ∧ scenario3.currentSong = some songC := by decide

/-- C8: `seekTo(t)` clamps the time into `[0, duration]` (in particular
`seekTo(250)` with `duration = 200` lands on 200), issues no persistence
call, and leaves every other state field unchanged. -/
theorem seekTo_spec (t : Rat) (s : PlayerState) :
    (s.duration = 200 → (seekTo 250 s).1.currentTime = 200) ∧
    (seekTo t s).2 = [] ∧
    (seekTo t s).1.currentTime = max 0 (min t s.duration) ∧
    (seekTo t s).1.currentSong = s.currentSong ∧
    (seekTo t s).1.queue = s.queue ∧
    (seekTo t s).1.originalQueue = s.originalQueue ∧
    (seekTo t s).1.shuffledQueue = s.shuffledQueue ∧
    (seekTo t s).1.isPlaying = s.isPlaying ∧
    (seekTo t s).1.duration = s.duration ∧
    (seekTo t s).1.isLoading = s.isLoading ∧
    (seekTo t s).1.shuffle = s.shuffle ∧
    (seekTo t s).1.repeatMode = s.repeatMode ∧
    (seekTo t s).1.volume = s.volume ∧
    (seekTo t s).1.playHistory = s.playHistory := by
  refine ⟨?_, rfl, rfl, rfl, rfl, rfl, rfl, rfl, rfl, rfl, rfl, rfl, rfl, rfl⟩
  intro h
  show max 0 (min 250 s.duration) = 200
  rw [h]
  decide

/-- Witness for `seekTo_spec`: seeking to 250 in the scenario state after
one `nextSong()` (duration 200) clamps to 200. -/
theorem seekTo_spec_witness : (seekTo 250 scenario1).1.currentTime = 200 :=
  (seekTo_spec 250 scenario1).1 (by decide)

/-- C9: the queue-mutation actions are defensive no-ops — out-of-range
indices leave the whole state untouched and issue no persistence call, and
`resumeSong` / `nextSong` / `previousSong` silently do nothing without a
current song (or, for next/previous, with an empty queue). -/
theorem defensive_noop :
    (∀ (s : PlayerState) (index : Int) (draws : List Nat),
        index < 0 ∨ (s.queue.length : Int) ≤ index →
        removeFromQueue index draws s = (s, [])) ∧
    (∀ (s : PlayerState) (fromIdx toIdx : Int),
        fromIdx < 0 ∨ (s.queue.length : Int) ≤ fromIdx ∨ toIdx < 0 ∨
          (s.queue.length : Int) ≤ toIdx →
        reorderQueue fromIdx toIdx s = (s, [])) ∧
    (∀ s : PlayerState, s.currentSong = none → resumeSong s = (s, [])) ∧
    (∀ (s : PlayerState) (draws : List Nat),
        s.currentSong = none ∨ s.queue = [] → nextSong s draws = (s, [])) ∧
    (∀ (s : PlayerState) (draws : List Nat),
        s.currentSong = none ∨ s.queue = [] → previousSong s draws = (s, [])) := by
  refine ⟨?_, ?_, ?_, ?_, ?_⟩
  · intro s index draws h
    unfold removeFromQueue
    rw [if_pos h]
  · intro s f t h
    unfold reorderQueue
    rw [if_pos h]
  · intro s h
    unfold resumeSong
    rw [h]
  · intro s draws h
    unfold nextSong
    cases hc : s.currentSong with
    | none => rfl
    | some c =>
      rcases h with h | h
      · rw [hc] at h; cases h
      · dsimp only
        rw [if_pos (by simp [h])]
  · intro s draws h
    unfold previousSong
    cases hc : s.currentSong with
    | none => rfl
    | some c =>
      rcases h with h | h
      · rw [hc] at h; cases h
      · dsimp only
        rw [if_pos (by simp [h])]

/-- Witness for `defensive_noop`: the five no-op cases at concrete
inputs. -/
theorem defensive_noop_witness :
    removeFromQueue (-1) [] scenarioState = (scenarioState, []) ∧
    reorderQueue 0 5 scenarioState = (scenarioState, []) ∧
    resumeSong initialState = (initialState, []) ∧
    nextSong initialState [] = (initialState, []) ∧
    previousSong initialState [] = (initialState, []) :=
  ⟨defensive_noop.1 scenarioState (-1) [] (Or.inl (by decide)),
   defensive_noop.2.1 scenarioState 0 5 (Or.inr (Or.inr (Or.inr (by decide)))),
   defensive_noop.2.2.1 initialState (by decide),
   defensive_noop.2.2.2.1 initialState [] (Or.inl (by decide)),
   defensive_noop.2.2.2.2 initialState [] (Or.inl (by decide))⟩

/-- C10: `clearQueue` empties all three queue representations, clears the
current song, stops playback, zeroes position and duration, and leaves
`shuffle`, `repeatMode` and `volume` exactly as they were (no reset to
their defaults). -/
theorem clearQueue_spec (s : PlayerState) :
    (clearQueue s).1.queue = [] ∧ (clearQueue s).1.originalQueue = [] ∧
    (clearQueue s).1.shuffledQueue = [] ∧ (clearQueue s).1.currentSong = none ∧
    (clearQueue s).1.isPlaying = false ∧ (clearQueue s).1.currentTime = 0 ∧
    (clearQueue s).1.duration = 0 ∧
    (clearQueue s).1.shuffle = s.shuffle ∧
    (clearQueue s).1.repeatMode = s.repeatMode ∧
    (clearQueue s).1.volume = s.volume :=
  ⟨rfl, rfl, rfl, rfl, rfl, rfl, rfl, rfl, rfl, rfl⟩

/-- C7 (amended): among the direct setters, `setRepeat`, `setVolume`,
`setIsPlaying` and `setCurrentSong` persist (their only persistence call is
`savePlayerState` on the mutated state), while `setCurrentTime` — contrary
to the claim — as well as `setDuration` and `setIsLoading` issue no
persistence call at all. -/
theorem setters_persistence (s : PlayerState) (mode : RepeatMode) (v t d : Rat)
    (p l : Bool) (song : Option Song) :
    (setRepeat mode s).2 = [StorageOp.playerState (setRepeat mode s).1] ∧
    (setVolume v s).2 = [StorageOp.playerState (setVolume v s).1] ∧
    (setIsPlaying p s).2 = [StorageOp.playerState (setIsPlaying p s).1] ∧
    (setCurrentSong song s).2 = [StorageOp.playerState (setCurrentSong song s).1] ∧
    (setCurrentTime t s).2 = [] ∧
    (setDuration d s).2 = [] ∧
    (setIsLoading l s).2 = [] :=
  ⟨rfl, rfl, rfl, rfl, rfl, rfl, rfl⟩

/-- C7 counterexample: `setCurrentTime` mutates the state (here moving
`currentTime` from 0 to 5) yet issues no persistence call, so it does not
trigger `savePlayerState` as the claim states. -/
theorem setCurrentTime_no_persist_cex :
    (setCurrentTime 5 scenarioState).1 ≠ scenarioState ∧
    (setCurrentTime 5 scenarioState).2 = [] := by decide

/-- C1 (amended): `playSong(song)` for a song absent from the effective
queue while shuffle is active and `shuffledQueue` is non-empty prepends the
song to the visible `queue` but leaves `shuffledQueue` untouched, so
afterwards `queue` differs from the authoritative `shuffledQueue` — the
queue-mirror invariant does *not* survive this action. -/
theorem playSong_absent_shuffle_queue (song : Song) (s : PlayerState)
    (hs : s.shuffle = true) (hne : s.shuffledQueue ≠ [])
    (habs : (getEffectiveQueue s).findIdx? (fun x => x.id == song.id) = none) :
    (playSong song s).1.queue = song :: s.shuffledQueue ∧
    (playSong song s).1.shuffledQueue = s.shuffledQueue ∧
    (playSong song s).1.queue ≠ (playSong song s).1.shuffledQueue := by
  have heff : getEffectiveQueue s = s.shuffledQueue := by
    unfold getEffectiveQueue
    rw [if_pos ⟨hs, List.length_pos.mpr hne⟩]
  have habs2 : s.shuffledQueue.findIdx? (fun x => x.id == song.id) = none := by
    rw [heff] at habs
    exact habs
  have hq : (playSong song s).1.queue = song :: s.shuffledQueue := by
    simp [playSong, heff, habs2]
  have hsq : (playSong song s).1.shuffledQueue = s.shuffledQueue := by
    simp [playSong, heff, habs2]
  refine ⟨hq, hsq, ?_⟩
  rw [hq, hsq]
  exact List.cons_ne_self song s.shuffledQueue

/-- Witness for `playSong_absent_shuffle_queue` at the reachable state
`chainState2` (shuffle on, shuffled queue `[songB]`) playing the absent
`songA`. -/
theorem playSong_absent_shuffle_queue_witness :
    (playSong songA chainState2).1.queue = songA :: chainState2.shuffledQueue ∧
    (playSong songA chainState2).1.shuffledQueue = chainState2.shuffledQueue ∧
    (playSong songA chainState2).1.queue ≠ (playSong songA chainState2).1.shuffledQueue :=
  playSong_absent_shuffle_queue songA chainState2 (by decide) (by decide) (by decide)

/-- C1 counterexample: from the default start state, `addToQueue(songB)`,
`toggleShuffle()` and then `playSong(songA)` (a public-action sequence)
reach a state with shuffle on and a non-empty `shuffledQueue` in which the
visible `queue` differs from the authoritative `shuffledQueue`. -/
theorem playSong_breaks_queue_mirror_cex :
    chainState3.shuffle = true ∧ chainState3.shuffledQueue ≠ [] ∧
    chainState3.queue ≠ chainState3.shuffledQueue := by decide

/-- C6 (amended): `savePlayerState` followed by `loadPlayerState` (through
`initializeFromStorage`, embedded as `initFromStorage`) reproduces
`shuffle`, `repeat` and `volume` exactly for *every* state, and reproduces
`queue` exactly for the states whose visible `queue` agrees with
`shuffledQueue` whenever shuffle is on with a non-empty `shuffledQueue` —
the load path rebuilds `queue` from the stored `shuffledQueue` in that
case, so states violating that coherence (reachable via `playSong`) do not
round-trip their `queue`. -/
theorem savePlayerState_roundtrip (s0 s : PlayerState) (st : Storage) :
    ((s.queue = s.shuffledQueue ∨ ¬(s.shuffle = true ∧ s.shuffledQueue ≠ [])) →
      (initFromStorage (savePlayerState s st) s0).queue = s.queue) ∧
    (initFromStorage (savePlayerState s st) s0).shuffle = s.shuffle ∧
    (initFromStorage (savePlayerState s st) s0).repeatMode = s.repeatMode ∧
    (initFromStorage (savePlayerState s st) s0).volume = s.volume := by
  obtain ⟨cs, q, oq, sq, ip, ct, d, il, sh, rm, v, ph⟩ := s
  cases cs <;>
    (refine ⟨?_, rfl, rfl, rfl⟩
     intro h
     show (if sh = true ∧ sq.length > 0 then sq else q) = q
     rcases h with h | h
     · split_ifs with hcond
       · exact h.symm
       · rfl
     · split_ifs with hcond
       · exact absurd ⟨hcond.1, List.length_pos.mp hcond.2⟩ h
       · rfl)

/-- Witness for `savePlayerState_roundtrip`: the scenario state (shuffle
off) round-trips its `queue`, `shuffle`, `repeat` and `volume`; the
incoherent reachable state `chainState3` still round-trips `shuffle`,
`repeat` and `volume`. -/
theorem savePlayerState_roundtrip_witness :
    (initFromStorage (savePlayerState scenarioState emptyStorage) initialState).queue =
        scenarioState.queue ∧
    (initFromStorage (savePlayerState scenarioState emptyStorage) initialState).shuffle =
        scenarioState.shuffle ∧
    (initFromStorage (savePlayerState scenarioState emptyStorage) initialState).repeatMode =
        scenarioState.repeatMode ∧
    (initFromStorage (savePlayerState scenarioState emptyStorage) initialState).volume =
        scenarioState.volume ∧
    (initFromStorage (savePlayerState chainState3 emptyStorage) initialState).shuffle =
        chainState3.shuffle ∧
    (initFromStorage (savePlayerState chainState3 emptyStorage) initialState).repeatMode =
        chainState3.repeatMode ∧
    (initFromStorage (savePlayerState chainState3 emptyStorage) initialState).volume =
        chainState3.volume :=
  ⟨(savePlayerState_roundtrip initialState scenarioState emptyStorage).1
      (Or.inr (by decide)),
   (savePlayerState_roundtrip initialState scenarioState emptyStorage).2.1,
   (savePlayerState_roundtrip initialState scenarioState emptyStorage).2.2.1,
   (savePlayerState_roundtrip initialState scenarioState emptyStorage).2.2.2,
   (savePlayerState_roundtrip initialState chainState3 emptyStorage).2.1,
   (savePlayerState_roundtrip initialState chainState3 emptyStorage).2.2.1,
   (savePlayerState_roundtrip initialState chainState3 emptyStorage).2.2.2⟩

/-- C6 counterexample: the reachable state `chainState3` (shuffle on,
`queue = [A, B]`, `shuffledQueue = [B]`) does not round-trip: the reload
rebuilds `queue` from the stored shuffled queue, yielding `[B]`. -/
theorem roundtrip_queue_cex :
    (initFromStorage (savePlayerState chainState3 emptyStorage) initialState).queue ≠
      chainState3.queue := by decide

/-- Trimming never leaves more than 50 entries. -/
lemma trimHistory_length_le (hist : List Song) : (trimHistory hist).length ≤ 50 := by
  unfold trimHistory
  split_ifs with h
  · simp only [List.length_drop]
    omega
  · omega

/-- After `playSong` the history holds at most 51 entries: the trim runs
first (down to at most 50) and at most one song is pushed. -/
lemma playSong_playHistory_le (song : Song) (s : PlayerState) :
    (playSong song s).1.playHistory.length ≤ 51 := by
  have h1 := trimHistory_length_le s.playHistory
  cases hidx : List.findIdx? (fun x => x.id == song.id) (getEffectiveQueue s) <;>
    cases hc : s.currentSong <;>
      simp only [playSong, hidx, hc] <;>
        (try split_ifs) <;>
          (try simp only [List.length_append, List.length_cons, List.length_nil]) <;>
            omega

/-- `nextSong` either leaves the history alone or trims-then-pushes,
so the result is bounded by the old length or by 51. -/
lemma nextSong_playHistory_le (s : PlayerState) (draws : List Nat) :
    (nextSong s draws).1.playHistory.length ≤ max s.playHistory.length 51 := by
  have h1 := trimHistory_length_le s.playHistory
  cases hc : s.currentSong with
  | none => simp [nextSong, hc]
  | some c =>
    by_cases hq : s.queue.length = 0
    · simp [nextSong, hc, hq]
    · cases hidx : List.findIdx? (fun x => x.id == c.id) (getEffectiveQueue s) with
      | none => simp [nextSong, hc, hq, hidx]
      | some currentIndex =>
        cases hni : getNextSongIndex currentIndex (getEffectiveQueue s) s.shuffle
            s.repeatMode draws with
        | none => simp [nextSong, hc, hq, hidx, hni]
        | some ni =>
          cases ni with
          | none => simp [nextSong, hc, hq, hidx, hni]
          | some n =>
            simp only [nextSong, hc, hq, hidx, hni]
            split_ifs <;> simp only [List.length_append, List.length_cons,
              List.length_nil] <;> omega

/-- `previousSong` never grows the history (it only pops or keeps it). -/
lemma previousSong_playHistory_le (s : PlayerState) (draws : List Nat) :
    (previousSong s draws).1.playHistory.length ≤ s.playHistory.length := by
  cases hc : s.currentSong with
  | none => simp [previousSong, hc]
  | some c =>
    by_cases hq : s.queue.length = 0
    · simp [previousSong, hc, hq]
    · cases hidx : List.findIdx? (fun x => x.id == c.id) (getEffectiveQueue s) with
      | none => simp [previousSong, hc, hq, hidx]
      | some currentIndex =>
        cases hpi : getPreviousSongIndex currentIndex (getEffectiveQueue s) s.shuffle
            s.repeatMode s.playHistory draws with
        | none => simp [previousSong, hc, hq, hidx, hpi]
        | some pi =>
          cases pi with
          | none => simp [previousSong, hc, hq, hidx, hpi]
          | some p =>
            simp only [previousSong, hc, hq, hidx, hpi]
            split_ifs <;> first
              | omega
              | rfl
              | (cases hl : s.playHistory.getLast? <;>
                  simp [hl, List.length_dropLast] <;> split_ifs <;>
                    simp [List.length_dropLast] <;> omega)

/-- One song-transition step keeps the history within 51 entries. -/
lemma applyAction_playHistory_le (s : PlayerState) (a : PlayerAction)
    (h : s.playHistory.length ≤ 51) : (applyAction s a).playHistory.length ≤ 51 := by
  cases a with
  | play song => exact playSong_playHistory_le song s
  | next draws =>
    have h2 := nextSong_playHistory_le s draws
    show (nextSong s draws).1.playHistory.length ≤ 51
    omega
  | prev draws => exact le_trans (previousSong_playHistory_le s draws) h

/-- C3 (amended): starting from an empty play history, after any sequence
of song transitions the play history never holds more than 51 entries (the
source trims only when the length already exceeds 50 and then pushes, so
the cap is 51, not the claimed 50). -/
theorem playHistory_bounded (s : PlayerState) (acts : List PlayerAction)
    (h : s.playHistory = []) : (runActions s acts).playHistory.length ≤ 51 := by
  have h0 : s.playHistory.length ≤ 51 := by rw [h]; decide
  clear h
  induction acts generalizing s with
  | nil => exact h0
  | cons a rest ih =>
    have hrun : runActions s (a :: rest) = runActions (applyAction s a) rest := rfl
    rw [hrun]
    exact ih (applyAction s a) (applyAction_playHistory_le s a h0)

/-- Witness for `playHistory_bounded`: the 52-play sequence from the
52-song state with empty history. -/
theorem playHistory_bounded_witness :
    (runActions histState plays52).playHistory.length ≤ 51 :=
  playHistory_bounded histState plays52 rfl

set_option maxRecDepth 40000 in
/-- C3 counterexample: from an empty play history, playing 52 distinct
songs in sequence leaves 51 entries in the play history — more than the
claimed bound of 50. -/
theorem playHistory_reaches_51_cex :
    histState.playHistory = [] ∧
    (runActions histState plays52).playHistory.length = 51 ∧
    50 < (runActions histState plays52).playHistory.length := by decide
